import Mathlib

/-!
Verification of the geopy `AzureMaps` (src/geopy/geocoders/azure.py) and
`MapTiler` (src/geopy/geocoders/maptiler.py) adapters against their
natural-language specification.

The decoded JSON bodies the adapters consume are modelled by the inductive
type `J`; the Python runtime behaviours the code relies on (dict `in`/`[]`/
`.get`, iteration, truthiness, `float()`, `urllib.parse.quote`,
`quote_plus`, `urlencode`) are embedded as executable Lean functions, each
returning `Except PyErr` where the Python operation can raise.
-/

/-- A decoded JSON value (the result of decoding a response body in Python):
`null`/Python `None`, booleans, numbers (modelled as rationals), strings,
arrays and objects (association lists, Python dicts have unique keys). -/
inductive J where
  | null
  | bool (b : Bool)
  | num (q : Rat)
  | str (s : String)
  | arr (xs : List J)
  | obj (kvs : List (String × J))

/-- The Python exceptions the embedded code can raise.  A top-level `error`
key in a Vendor-A batch response raises `geopy.exc.GeocoderServiceError`
(here carrying the JSON value of the `error` key); the remaining
constructors are the builtin Python exception classes. -/
inductive PyErr where
  | serviceError (payload : J)
  | keyError (k : String)
  | typeError
  | valueError
  | indexError
  | attributeError

/-- Modelled from the spec: `geopy.location.Location` is not under src/.
Per spec section 3 it is an immutable value holding a display name (text or
absent, here the JSON value handed to the constructor, `J.null` when the
Python argument is `None`), a (latitude, longitude) pair of numbers, and
the raw source payload. -/
structure Location where
  name : J
  latitude : Rat
  longitude : Rat
  raw : J

/-- Lookup in a decoded JSON object / Python dict (first matching key). -/
def dictGet (kvs : List (String × J)) (k : String) : Option J :=
  (kvs.find? (fun p => p.1 == k)).map (fun p => p.2)

/-- Python `k in d` for a dict `d`. -/
def pyIn (kvs : List (String × J)) (k : String) : Bool :=
  kvs.any (fun p => p.1 == k)

/-- Python truthiness of a decoded JSON value. -/
def pyTruthy : J → Bool
  | J.null => false
  | J.bool b => b
  | J.num q => !(q == 0)
  | J.str s => !(s == "")
  | J.arr xs => !xs.isEmpty
  | J.obj kvs => !kvs.isEmpty

/-- Python iteration over a decoded JSON value: lists yield elements, dicts
yield their keys, strings yield one-character strings; other values raise
`TypeError`. -/
def pyIter : J → Except PyErr (List J)
  | J.arr xs => Except.ok xs
  | J.obj kvs => Except.ok (kvs.map (fun p => J.str p.1))
  | J.str s => Except.ok (s.data.map (fun c => J.str (String.mk [c])))
  | _ => Except.error PyErr.typeError

/-- Python `v[k]` with a string key: `KeyError` when the key is absent from
a dict, `TypeError` when `v` is not a dict. -/
def pyIndex (v : J) (k : String) : Except PyErr J :=
  match v with
  | J.obj kvs =>
    match dictGet kvs k with
    | some x => Except.ok x
    | none => Except.error (PyErr.keyError k)
  | _ => Except.error PyErr.typeError

/-- Python `v[i]` with a non-negative integer index. -/
def pyIndexNat (v : J) (i : Nat) : Except PyErr J :=
  match v with
  | J.arr xs =>
    match xs.get? i with
    | some x => Except.ok x
    | none => Except.error PyErr.indexError
  | J.str s =>
    match s.data.get? i with
    | some c => Except.ok (J.str (String.mk [c]))
    | none => Except.error PyErr.indexError
  | _ => Except.error PyErr.typeError

/-- Python `k in v` for a string `k`: key membership on dicts, element
membership on lists, substring test on strings; `TypeError` otherwise. -/
def pyContains (v : J) (k : String) : Except PyErr Bool :=
  match v with
  | J.obj kvs => Except.ok (pyIn kvs k)
  | J.arr xs =>
    Except.ok (xs.any (fun j => match j with | J.str s => s == k | _ => false))
  | J.str s =>
    Except.ok (if k == "" then true else !((s.splitOn k).length == 1))
  | _ => Except.error PyErr.typeError

/-- Python `v.get(k, d)`: `AttributeError` when `v` is not a dict. -/
def pyGetD (v : J) (k : String) (d : J) : Except PyErr J :=
  match v with
  | J.obj kvs => Except.ok ((dictGet kvs k).getD d)
  | _ => Except.error PyErr.attributeError

/-- Python `v.get(k)` (default `None`): `AttributeError` when `v` is not a
dict. -/
def pyGetN (v : J) (k : String) : Except PyErr (Option J) :=
  match v with
  | J.obj kvs => Except.ok (dictGet kvs k)
  | _ => Except.error PyErr.attributeError

/-- Strip leading and trailing whitespace from a character list (Python
`float()` ignores surrounding whitespace). -/
def stripChars (cs : List Char) : List Char :=
  (((cs.dropWhile Char.isWhitespace).reverse.dropWhile Char.isWhitespace)).reverse

/-- Parse a decimal numeral the way Python `float()` parses the common
`[+-]digits[.digits]` forms (surrounding whitespace ignored); other
accepted forms such as exponents are outside the embedding. -/
def parseFloatStr (s : String) : Option Rat :=
  let cs := stripChars s.data
  let signAndRest : Bool × List Char :=
    match cs with
    | '-' :: r => (true, r)
    | '+' :: r => (false, r)
    | _ => (false, cs)
  let neg := signAndRest.1
  let cs2 := signAndRest.2
  let intPart := cs2.takeWhile Char.isDigit
  let rest := cs2.dropWhile Char.isDigit
  let fracAndRest : List Char × List Char :=
    match rest with
    | '.' :: r => (r.takeWhile Char.isDigit, r.dropWhile Char.isDigit)
    | _ => ([], rest)
  let fracPart := fracAndRest.1
  let rest2 := fracAndRest.2
  if rest2 = [] then
    if intPart = [] && fracPart = [] then none
    else
      let iv : Nat := intPart.foldl (fun a c => a * 10 + (c.toNat - 48)) 0
      let fv : Nat := fracPart.foldl (fun a c => a * 10 + (c.toNat - 48)) 0
      let mag : Rat := (iv : Rat) + (fv : Rat) / ((10 : Rat) ^ fracPart.length)
      some (if neg then -mag else mag)
  else none

/-- Python `float(x)` on a decoded JSON value: numbers pass through,
booleans convert to 0/1, strings are parsed (`ValueError` on failure),
everything else — including `None` — raises `TypeError`. -/
def pyFloat : J → Except PyErr Rat
  | J.num q => Except.ok q
  | J.bool b => Except.ok (if b then 1 else 0)
  | J.str s =>
    match parseFloatStr s with
    | some q => Except.ok q
    | none => Except.error PyErr.valueError
  | _ => Except.error PyErr.typeError

/-- UTF-8 encoding of one character as a byte list. -/
def utf8EncodeChar (c : Char) : List Nat :=
  let n := c.toNat
  if n < 0x80 then [n]
  else if n < 0x800 then [0xC0 + n / 64, 0x80 + n % 64]
  else if n < 0x10000 then
    [0xE0 + n / 4096, 0x80 + (n / 64) % 64, 0x80 + n % 64]
  else
    [0xF0 + n / 262144, 0x80 + (n / 4096) % 64, 0x80 + (n / 64) % 64, 0x80 + n % 64]

/-- UTF-8 bytes of a string (CPython encodes to UTF-8 before quoting). -/
def utf8Bytes (s : String) : List Nat :=
  s.data.foldr (fun c acc => utf8EncodeChar c ++ acc) []

/-- Uppercase hexadecimal digit, as used by `urllib.parse.quote`. -/
def hexDigit (n : Nat) : Char :=
  if n < 10 then Char.ofNat (48 + n) else Char.ofNat (55 + n)

/-- The characters `urllib.parse.quote` never encodes: ASCII letters,
digits, and `_.-~`. -/
def isAlwaysSafe (n : Nat) : Bool :=
  (65 ≤ n && n ≤ 90) || (97 ≤ n && n ≤ 122) || (48 ≤ n && n ≤ 57)
    || n == 95 || n == 46 || n == 45 || n == 126

/-- Percent-quote one byte, leaving always-safe bytes and the extra `safe`
bytes unencoded. -/
def quoteByte (safe : List Nat) (b : Nat) : String :=
  if isAlwaysSafe b || safe.contains b then String.mk [Char.ofNat b]
  else String.mk ['%', hexDigit (b / 16), hexDigit (b % 16)]

/-- `urllib.parse.quote(s)` with its default safe set holding only the slash byte. -/
def quote (s : String) : String :=
  (utf8Bytes s).foldl (fun acc b => acc ++ quoteByte [47] b) ""

/-- `urllib.parse.quote_plus(s)` with its default empty safe set: equal to
quoting every byte except that a space byte becomes `+`. -/
def quote_plus (s : String) : String :=
  (utf8Bytes s).foldl
    (fun acc b => acc ++ (if b == 32 then "+" else quoteByte [] b)) ""

/-- `urllib.parse.urlencode` on string-valued parameters (its default
quoting function is `quote_plus`); Python 3 dicts preserve insertion
order, so the parameters are an ordered list. -/
def urlencode (params : List (String × String)) : String :=
  String.intercalate "&" (params.map (fun p => quote_plus p.1 ++ "=" ++ quote_plus p.2))

/-- Left-to-right effectful map over a list in the `Except` monad, the
shape of the Python `for` loops that append one parsed element per input
element and propagate the first raised exception. -/
def exMapM {α β ε : Type} (f : α → Except ε β) : List α → Except ε (List β)
  | [] => Except.ok []
  | x :: xs =>
    match f x with
    | Except.error e => Except.error e
    | Except.ok y =>
      match exMapM f xs with
      | Except.error e => Except.error e
      | Except.ok ys => Except.ok (y :: ys)

/-! ## The Vendor-A adapter: `AzureMaps` (src/geopy/geocoders/azure.py) -/

/-- The per-instance configuration of an `AzureMaps` geocoder.  The fields
are exactly the attributes the adapter reads after construction. -/
structure AzureMaps where
  api_key : String
  scheme : String
  domain : String
  api_batch : String
  api_reverse_batch : String
  max_batch_size : Nat

/-- `AzureMaps.__init__` (azure.py lines 26-79).  The `TomTom`/`Geocoder`
base constructors are not under src/; per the spec they store the
subscription key and connection configuration unchanged (`scheme` is
taken here already resolved to its default when the caller passed none).
The batch endpoint URLs and `max_batch_size` are set exactly as in the
source: `"%s://%s%s" % (scheme, domain, path)` and `1000`. -/
def AzureMaps.init (subscription_key scheme domain : String) : AzureMaps :=
  { api_key := subscription_key
  , scheme := scheme
  , domain := domain
  , api_batch := scheme ++ "://" ++ domain ++ "/search/address/batch/sync/json"
  , api_reverse_batch := scheme ++ "://" ++ domain ++ "/search/address/reverse/batch/sync/json"
  , max_batch_size := 1000 }

/-- The POST request built by a batch method: the request URL and the JSON
body. -/
structure AzureBatchRequest where
  url : String
  data : J

/-- `AzureMaps._batch_geocode_params` (azure.py lines 135-139). -/
def AzureMaps.batch_geocode_params (self : AzureMaps) : List (String × String) :=
  [("api-version", "1.0"), ("subscription-key", self.api_key)]

/-- `AzureMaps._batch_geocode` (azure.py lines 141-162), up to the point
where the request is handed to `_call_geocoder`: builds the
`{"batchItems": [{"query": ...}]}` body — one item per input address,
each query string `"?limit=1&"` or `"?"` followed by
`"query=" + quote_plus(location)` — and the batch-sync URL with the
`api-version`/`subscription-key` parameters plus `language` when that
argument is truthy. -/
def AzureMaps._batch_geocode (self : AzureMaps) (query : List String)
    (exactly_one : Bool) (language : Option String) : AzureBatchRequest :=
  let items : List J := query.foldl
    (fun acc location =>
      acc ++ [J.obj [("query",
        J.str ((if exactly_one then "?limit=1&" else "?") ++ ("query=" ++ quote_plus location)))]])
    []
  let params := self.batch_geocode_params ++
    (match language with
     | some l => if l == "" then [] else [("language", l)]
     | none => [])
  { url := self.api_batch ++ "?" ++ urlencode params
  , data := J.obj [("batchItems", J.arr items)] }

/-- `AzureMaps._batch_reverse` (azure.py lines 164-185), up to the point
where the request is handed to `_call_geocoder`.  Each input coordinate
pair is rendered by the f-string `f"query={lat},{lng}"`; the embedding
takes the two rendered coordinate strings as given. -/
def AzureMaps._batch_reverse (self : AzureMaps) (query : List (String × String))
    (exactly_one : Bool) (language : Option String) : AzureBatchRequest :=
  let items : List J := query.foldl
    (fun acc p =>
      acc ++ [J.obj [("query",
        J.str ((if exactly_one then "?limit=1&" else "?") ++ ("query=" ++ (p.1 ++ "," ++ p.2))))]])
    []
  let params := self.batch_geocode_params ++
    (match language with
     | some l => if l == "" then [] else [("language", l)]
     | none => [])
  { url := self.api_reverse_batch ++ "?" ++ urlencode params
  , data := J.obj [("batchItems", J.arr items)] }

/-- The coordinate extraction of `AzureMaps._parse_batch_response`
(azure.py lines 202-208): a dict position yields
`(float(position.get("lat")), float(position.get("lon")))`, any other
position is `.split(",")` and its first two fields converted; `.get` on a
missing key returns `None` and `float(None)` raises `TypeError`;
`.split` on a non-string raises `AttributeError`. -/
def AzureMaps.parsePosition (position : J) : Except PyErr (Rat × Rat) :=
  match position with
  | J.obj kvs =>
    match pyFloat ((dictGet kvs "lat").getD J.null) with
    | Except.error e => Except.error e
    | Except.ok lat =>
      match pyFloat ((dictGet kvs "lon").getD J.null) with
      | Except.error e => Except.error e
      | Except.ok lng => Except.ok (lat, lng)
  | J.str s =>
    match (s.splitOn ",").get? 0 with
    | none => Except.error PyErr.indexError
    | some p0 =>
      match pyFloat (J.str p0) with
      | Except.error e => Except.error e
      | Except.ok lat =>
        match (s.splitOn ",").get? 1 with
        | none => Except.error PyErr.indexError
        | some p1 =>
          match pyFloat (J.str p1) with
          | Except.error e => Except.error e
          | Except.ok lng => Except.ok (lat, lng)
  | _ => Except.error PyErr.attributeError

/-- The per-result body of `AzureMaps._parse_batch_response`
(azure.py lines 199-216): `address = result.get("address", {})`,
`position = result.get("position", {})`, coordinate extraction, then
`Location(address.get("freeformAddress"), (lat, lng), result)`. -/
def AzureMaps.parseResultLoc (result : J) : Except PyErr Location :=
  match pyGetD result "address" (J.obj []) with
  | Except.error e => Except.error e
  | Except.ok address =>
    match pyGetD result "position" (J.obj []) with
    | Except.error e => Except.error e
    | Except.ok position =>
      match AzureMaps.parsePosition position with
      | Except.error e => Except.error e
      | Except.ok ll =>
        match pyGetN address "freeformAddress" with
        | Except.error e => Except.error e
        | Except.ok nm =>
          Except.ok { name := nm.getD J.null, latitude := ll.1, longitude := ll.2, raw := result }

/-- The Python value appended to `locations` for one batch item: a single
optional `Location` when `exactly_one` is set, a list of `Location`s
otherwise. -/
inductive AzResult where
  | one (l : Option Location)
  | many (ls : List Location)

/-- The loop body of `AzureMaps._parse_batch_response` (azure.py lines
196-223) for one element of `batchItems`:
`if key in item["response"] and item["response"][key]:` builds the
result list (keeping only the first element when `exactly_one`), the
missing/empty branch yields `None` or `[]`. -/
def AzureMaps.parseBatchItem (key : String) (exactly_one : Bool) (item : J) :
    Except PyErr AzResult :=
  match pyIndex item "response" with
  | Except.error e => Except.error e
  | Except.ok response =>
    match pyContains response key with
    | Except.error e => Except.error e
    | Except.ok hk =>
      if hk then
        match pyIndex response key with
        | Except.error e => Except.error e
        | Except.ok v =>
          if pyTruthy v then
            match pyIter v with
            | Except.error e => Except.error e
            | Except.ok rs =>
              match exMapM AzureMaps.parseResultLoc rs with
              | Except.error e => Except.error e
              | Except.ok locs =>
                if exactly_one then
                  match locs with
                  | l :: _ => Except.ok (AzResult.one (some l))
                  | [] => Except.error PyErr.indexError
                else Except.ok (AzResult.many locs)
          else if exactly_one then Except.ok (AzResult.one none)
          else Except.ok (AzResult.many [])
      else if exactly_one then Except.ok (AzResult.one none)
      else Except.ok (AzResult.many [])

/-- `AzureMaps._parse_batch_response` (azure.py lines 187-224).  The
decoded top-level body is a JSON object, given as its key/value list.
Selects `"addresses"`/`"results"` as the per-item key, raises
`GeocoderServiceError` when the body has a top-level `error` key, and
otherwise maps the loop body over `r_json.get("batchItems", [])`. -/
def AzureMaps._parse_batch_response (r_json : List (String × J))
    (exactly_one is_reverse : Bool) : Except PyErr (List AzResult) :=
  let key := if is_reverse then "addresses" else "results"
  if pyIn r_json "error" then
    Except.error (PyErr.serviceError ((dictGet r_json "error").getD J.null))
  else
    match pyIter ((dictGet r_json "batchItems").getD (J.arr [])) with
    | Except.error e => Except.error e
    | Except.ok items => exMapM (AzureMaps.parseBatchItem key exactly_one) items

/-! ## The Vendor-B adapter: `MapTiler` (src/geopy/geocoders/maptiler.py) -/

/-- Strip leading and trailing `/` characters (the Python strip of slash characters on `domain`
in `MapTiler.__init__`). -/
def stripSlashes (s : String) : String :=
  String.mk (((s.data.dropWhile (fun c => c == '/')).reverse.dropWhile (fun c => c == '/')).reverse)

/-- The per-instance configuration of a `MapTiler` geocoder. -/
structure MapTiler where
  api_key : String
  scheme : String
  domain : String
  max_batch_size : Nat

/-- `MapTiler.__init__` (maptiler.py lines 21-72).  The `Geocoder` base
constructor is not under src/; per the spec it stores the connection
configuration unchanged (`scheme` is taken here already resolved to its
default).  As in the source: the API key is stored, the domain is
stripped of surrounding slashes, and `max_batch_size` is set to `3`. -/
def MapTiler.init (api_key scheme domain : String) : MapTiler :=
  { api_key := api_key
  , scheme := scheme
  , domain := stripSlashes domain
  , max_batch_size := 3 }

/-- The one-or-several `Location`s produced from one feature collection by
`MapTiler._parse_feature`: Python `None`, a single `Location`, or a list
of `Location`s. -/
inductive MTRes where
  | nothing
  | loc (l : Location)
  | locs (ls : List Location)

/-- The local `parse_feature` function inside `MapTiler._parse_feature`
(maptiler.py lines 85-90): `location` is the `place_name` entry of the feature, `longitude` is entry 0
of its `center` array, `latitude` is entry 1,
then `Location(location, (latitude, longitude), feature)`.  The
`Location`/`Point` classes are not under src/; modelled from the spec,
construction converts the two coordinate values to numbers with
Python-`float` semantics and stores them as given. -/
def MapTiler.parse_feature_one (feature : J) : Except PyErr Location :=
  match pyIndex feature "place_name" with
  | Except.error e => Except.error e
  | Except.ok location =>
    match pyIndex feature "center" with
    | Except.error e => Except.error e
    | Except.ok center =>
      match pyIndexNat center 0 with
      | Except.error e => Except.error e
      | Except.ok lonJ =>
        match pyIndexNat center 1 with
        | Except.error e => Except.error e
        | Except.ok latJ =>
          match pyFloat latJ with
          | Except.error e => Except.error e
          | Except.ok la =>
            match pyFloat lonJ with
            | Except.error e => Except.error e
            | Except.ok lo =>
              Except.ok { name := location, latitude := la, longitude := lo, raw := feature }

/-- `MapTiler._parse_feature` (maptiler.py lines 79-94): looks up the `features`
entry of the collection; a falsy value yields `None`; otherwise the first
feature is parsed when `exactly_one`, else all features are parsed. -/
def MapTiler._parse_feature (feature : J) (exactly_one : Bool) : Except PyErr MTRes :=
  match pyIndex feature "features" with
  | Except.error e => Except.error e
  | Except.ok features =>
    if pyTruthy features = false then Except.ok MTRes.nothing
    else if exactly_one then
      match pyIndexNat features 0 with
      | Except.error e => Except.error e
      | Except.ok f0 =>
        match MapTiler.parse_feature_one f0 with
        | Except.error e => Except.error e
        | Except.ok l => Except.ok (MTRes.loc l)
    else
      match pyIter features with
      | Except.error e => Except.error e
      | Except.ok fs =>
        match exMapM MapTiler.parse_feature_one fs with
        | Except.error e => Except.error e
        | Except.ok ls => Except.ok (MTRes.locs ls)

/-- The value returned by `MapTiler._parse_json`: the result for a single
feature collection, or one result per collection for a list of them. -/
inductive MTParsed where
  | single (r : MTRes)
  | multi (rs : List MTRes)

/-- `MapTiler._parse_json` (maptiler.py lines 74-77): a dict is parsed as
one feature collection, anything else is iterated and each element parsed
as a collection. -/
def MapTiler._parse_json (json : J) (exactly_one : Bool) : Except PyErr MTParsed :=
  match json with
  | J.obj kvs =>
    match MapTiler._parse_feature (J.obj kvs) exactly_one with
    | Except.error e => Except.error e
    | Except.ok r => Except.ok (MTParsed.single r)
  | j =>
    match pyIter j with
    | Except.error e => Except.error e
    | Except.ok xs =>
      match exMapM (fun f => MapTiler._parse_feature f exactly_one) xs with
      | Except.error e => Except.error e
      | Except.ok rs => Except.ok (MTParsed.multi rs)

/-- A Python value that is either a single string or a list of strings
(the dynamic `isinstance(query, list)` dispatch in `_geocode`). -/
inductive PyStrOrList where
  | s (v : String)
  | l (vs : List String)

/-- The `language` argument of the MapTiler methods: `None`, a single
string, or a list of strings. -/
inductive PyLang where
  | none
  | s (v : String)
  | l (vs : List String)

/-- Modelled from the spec: `Geocoder._format_bounding_box` and the
`Point` class live in the base collaborator, not under src/.  The spec
says the bbox parameter is "formatted `lon1,lat1,lon2,lat2`"; the four
rendered corner coordinates of a caller-supplied bounding box are taken
as given strings. -/
structure BboxS where
  lon1 : String
  lat1 : String
  lon2 : String
  lat2 : String

/-- The bbox value produced by
`self._format_bounding_box(bbox, "%(lon1)s,%(lat1)s,%(lon2)s,%(lat2)s")`. -/
def formatBoundingBox (b : BboxS) : String :=
  b.lon1 ++ "," ++ b.lat1 ++ "," ++ b.lon2 ++ "," ++ b.lat2

/-- Modelled from the spec: `Point` normalization is in the base
collaborator, not under src/.  A caller-supplied coordinate (Point,
`(lat, lng)` pair, or `"lat,lng"` string) normalizes to a structured
point; its two coordinates are taken here as their rendered strings. -/
structure PtS where
  latS : String
  lonS : String

/-- Modelled from the spec:
`self._coerce_point_to_string(q, "%(lon)s,%(lat)s")` (base collaborator,
not under src/) renders a normalized point with the given template —
longitude first, then latitude, comma-separated. -/
def coercePointLonLat (p : PtS) : String :=
  p.lonS ++ "," ++ p.latS

/-- A Python value that is either a single coordinate or a list of them
(the dynamic `isinstance(query, list)` dispatch in `_reverse`). -/
inductive PtOrList where
  | s (p : PtS)
  | l (ps : List PtS)

/-- `MapTiler._geocode` (maptiler.py lines 152-177), up to the point
where the request is handed to `_call_geocoder`: returns the request URL.
A list query is semicolon-joined from per-item quoted addresses (dead
code path), a scalar query is percent-quoted; the parameters are `key`,
then `bbox`, `language` (a single string is first wrapped into a
one-element list and a truthy list comma-joined) and `proximity`
(`"%s,%s" % (p.longitude, p.latitude)`) when given. -/
def MapTiler._geocode (self : MapTiler) (query : PyStrOrList)
    (proximity : Option PtS) (language : PyLang) (bbox : Option BboxS) : String :=
  let q := match query with
    | PyStrOrList.l vs => String.intercalate ";" (vs.map quote)
    | PyStrOrList.s v => quote v
  let params := [("key", self.api_key)] ++
    (match bbox with
     | some b => [("bbox", formatBoundingBox b)]
     | none => []) ++
    (match (match language with
            | PyLang.s v => PyLang.l [v]
            | x => x) with
     | PyLang.l vs => if vs.isEmpty then [] else [("language", String.intercalate "," vs)]
     | _ => []) ++
    (match proximity with
     | some p => [("proximity", p.lonS ++ "," ++ p.latS)]
     | none => [])
  self.scheme ++ "://" ++ self.domain ++ "/geocoding/" ++ q ++ ".json?" ++ urlencode params

/-- `MapTiler._reverse` (maptiler.py lines 222-243), up to the point
where the request is handed to `_call_geocoder`: returns the request URL.
A list query is semicolon-joined from coerced points without quoting
(dead code path); a scalar query is coerced to `"lon,lat"` and
percent-quoted; the parameters are `key` and the optional comma-joined
`language`. -/
def MapTiler._reverse (self : MapTiler) (query : PtOrList) (language : PyLang) : String :=
  let q := match query with
    | PtOrList.l ps => String.intercalate ";" (ps.map coercePointLonLat)
    | PtOrList.s p => quote (coercePointLonLat p)
  let params := [("key", self.api_key)] ++
    (match (match language with
            | PyLang.s v => PyLang.l [v]
            | x => x) with
     | PyLang.l vs => if vs.isEmpty then [] else [("language", String.intercalate "," vs)]
     | _ => [])
  self.scheme ++ "://" ++ self.domain ++ "/geocoding/" ++ q ++ ".json?" ++ urlencode params

/-! ## Helper lemmas -/

/-- Appending one mapped element per iteration (the shape of the Python
`data["batchItems"].append(...)` loops) computes the map of the input. -/
theorem foldl_append_map {α β : Type} (g : α → β) :
    ∀ (xs : List α) (acc : List β),
      xs.foldl (fun acc a => acc ++ [g a]) acc = acc ++ xs.map g
  | [], acc => by simp
  | x :: xs, acc => by
    simp only [List.foldl_cons, List.map_cons]
    rw [foldl_append_map g xs (acc ++ [g x])]
    simp

/-- A successful `exMapM` relates input and output pointwise, in order. -/
theorem exMapM_forall2 {α β ε : Type} (f : α → Except ε β) :
    ∀ (xs : List α) (ys : List β), exMapM f xs = Except.ok ys →
      List.Forall₂ (fun x y => f x = Except.ok y) xs ys
  | [], ys, h => by
    simp only [exMapM] at h
    cases h
    exact List.Forall₂.nil
  | x :: xs, ys, h => by
    simp only [exMapM] at h
    cases hf : f x with
    | error e => rw [hf] at h; cases h
    | ok y =>
      rw [hf] at h
      cases hrec : exMapM f xs with
      | error e => rw [hrec] at h; cases h
      | ok ys2 =>
        rw [hrec] at h
        cases h
        exact List.Forall₂.cons hf (exMapM_forall2 f xs ys2 hrec)

/-- Membership of a key in a JSON object agrees with the success of its
lookup. -/
theorem pyIn_eq_isSome (kvs : List (String × J)) (k : String) :
    pyIn kvs k = (dictGet kvs k).isSome := by
  induction kvs with
  | nil => rfl
  | cons p rest ih =>
    simp only [pyIn, dictGet, List.any_cons, List.find?]
    cases hpk : (p.1 == k) with
    | true => simp
    | false =>
      simp only [Bool.false_or]
      simpa [pyIn, dictGet] using ih

/-! ## Claim theorems -/

/-- Claim C1: for every decoded Vendor-A batch response JSON whose
top-level mapping contains the key `error`, `_parse_batch_response` raises
a service error (`GeocoderServiceError`, carrying the error payload),
regardless of the contents of any batch items and for both forward and
reverse parsing and both `exactly_one` values. -/
theorem azure_error_key_raises_service_error
    (r_json : List (String × J)) (exactly_one is_reverse : Bool)
    (h : pyIn r_json "error" = true) :
    AzureMaps._parse_batch_response r_json exactly_one is_reverse
      = Except.error (PyErr.serviceError ((dictGet r_json "error").getD J.null)) := by
  simp [AzureMaps._parse_batch_response, h]

/-- Witness for C1 at a concrete response holding both an `error` object
and a batch item. -/
theorem azure_error_key_raises_service_error_witness :
    pyIn [("error", J.str "boom"), ("batchItems", J.arr [J.obj []])] "error" = true
    ∧ AzureMaps._parse_batch_response
        [("error", J.str "boom"), ("batchItems", J.arr [J.obj []])] true false
      = Except.error (PyErr.serviceError (J.str "boom")) :=
  ⟨rfl, azure_error_key_raises_service_error _ true false rfl⟩

/-- Claim C4: `_batch_geocode` builds a request body
`batchItems = [...]` with exactly one item per input address, per-item
query strings `"?limit=1&query=<quote_plus address>"` when `exactly_one`
and `"?query=<quote_plus address>"` otherwise; `_batch_reverse` builds the
identical shape with each item holding coordinates formatted as `"lat,lng"`. -/
theorem azure_batch_request_body_shape (cfg : AzureMaps) (addrs : List String)
    (pts : List (String × String)) (eo : Bool) (lang : Option String) :
    (AzureMaps._batch_geocode cfg addrs eo lang).data
      = J.obj [("batchItems", J.arr (addrs.map (fun a =>
          J.obj [("query",
            J.str ((if eo then "?limit=1&" else "?") ++ ("query=" ++ quote_plus a)))])))]
    ∧ (AzureMaps._batch_reverse cfg pts eo lang).data
      = J.obj [("batchItems", J.arr (pts.map (fun p =>
          J.obj [("query",
            J.str ((if eo then "?limit=1&" else "?") ++ ("query=" ++ (p.1 ++ "," ++ p.2))))])))] := by
  constructor <;>
    simp [AzureMaps._batch_geocode, AzureMaps._batch_reverse, foldl_append_map]

/-- Claim C6: for a scalar address query, `MapTiler._geocode` builds the
URL from the path template `/geocoding/<query>.json` with the address
percent-encoded, always includes the `key` parameter, and adds `bbox`
formatted `lon1,lat1,lon2,lat2` only when a bbox is given, `language` as
a comma-joined list only when a language is given, and `proximity`
formatted `lon,lat` only when a proximity point is given. -/
theorem maptiler_geocode_url_construction (cfg : MapTiler) (addr : String)
    (bbox : Option BboxS) (language : PyLang) (proximity : Option PtS) :
    MapTiler._geocode cfg (PyStrOrList.s addr) proximity language bbox
      = cfg.scheme ++ "://" ++ cfg.domain ++ "/geocoding/" ++ quote addr ++ ".json?"
        ++ urlencode ([("key", cfg.api_key)]
          ++ (match bbox with
              | some b => [("bbox", b.lon1 ++ "," ++ b.lat1 ++ "," ++ b.lon2 ++ "," ++ b.lat2)]
              | none => [])
          ++ (match language with
              | PyLang.s v => [("language", String.intercalate "," [v])]
              | PyLang.l vs => if vs.isEmpty then [] else [("language", String.intercalate "," vs)]
              | PyLang.none => [])
          ++ (match proximity with
              | some p => [("proximity", p.lonS ++ "," ++ p.latS)]
              | none => [])) := by
  cases bbox <;> cases language <;> cases proximity <;> rfl

/-- Claim C7: for a scalar coordinate query, `MapTiler._reverse` coerces
it to a `"lon,lat"` string, percent-encodes that string into the URL
path, and adds the optional comma-joined `language` parameter. -/
theorem maptiler_reverse_url_construction (cfg : MapTiler) (p : PtS)
    (language : PyLang) :
    MapTiler._reverse cfg (PtOrList.s p) language
      = cfg.scheme ++ "://" ++ cfg.domain ++ "/geocoding/"
        ++ quote (p.lonS ++ "," ++ p.latS) ++ ".json?"
        ++ urlencode ([("key", cfg.api_key)]
          ++ (match language with
              | PyLang.s v => [("language", String.intercalate "," [v])]
              | PyLang.l vs => if vs.isEmpty then [] else [("language", String.intercalate "," vs)]
              | PyLang.none => [])) := by
  cases language <;> rfl

/-- Claim C8: after construction the `max_batch_size` field of the Vendor-A
adapter is 1000 and that of the Vendor-B adapter is 3.  The embedding is purely
functional — no operation takes or returns a modified configuration — so
the field can never be modified after `init`. -/
theorem max_batch_size_constants (k s d k2 s2 d2 : String) :
    (AzureMaps.init k s d).max_batch_size = 1000
    ∧ (MapTiler.init k2 s2 d2).max_batch_size = 3 :=
  ⟨rfl, rfl⟩

/-- Claim C10: for every string `s`, `MapTiler._geocode` and
`MapTiler._reverse` called with `language = s` build the same request URL
as when called with `language = [s]`, all other arguments equal. -/
theorem maptiler_language_string_list_equiv (cfg : MapTiler) (q : PyStrOrList)
    (prox : Option PtS) (bbox : Option BboxS) (p2 : PtOrList) (s : String) :
    MapTiler._geocode cfg q prox (PyLang.s s) bbox
      = MapTiler._geocode cfg q prox (PyLang.l [s]) bbox
    ∧ MapTiler._reverse cfg p2 (PyLang.s s) = MapTiler._reverse cfg p2 (PyLang.l [s]) :=
  ⟨rfl, rfl⟩

/-- The precondition of claim C9 on the `position` field of a result: either a
mapping holding both `lat` and `lon` keys with number-convertible values
(convertible to `la` and `ln` respectively), or a string whose
comma-separated split has at least two fields, the first two
number-convertible (to `la` and `ln` respectively). -/
def posSpec (position : J) (la ln : Rat) : Prop :=
  (∃ kvs a b, position = J.obj kvs ∧ dictGet kvs "lat" = some a ∧ dictGet kvs "lon" = some b
     ∧ pyFloat a = Except.ok la ∧ pyFloat b = Except.ok ln)
  ∨ (∃ s p0 p1 rest, position = J.str s ∧ s.splitOn "," = p0 :: p1 :: rest
     ∧ pyFloat (J.str p0) = Except.ok la ∧ pyFloat (J.str p1) = Except.ok ln)

/-- Claim C9: under the `posSpec` precondition, the Vendor-A batch
parser has total coordinate extraction — it never raises, and the
produced `Location` stores (float of lat-part, float of lon-part) in that
order (latitude from `lat`/first field, longitude from `lon`/second
field). -/
theorem azure_position_extraction_total
    (position : J) (la ln : Rat) (rkvs : List (String × J))
    (h : posSpec position la ln)
    (h2 : dictGet rkvs "position" = some position)
    (h3 : dictGet rkvs "address" = none) :
    AzureMaps.parsePosition position = Except.ok (la, ln)
    ∧ AzureMaps.parseResultLoc (J.obj rkvs)
      = Except.ok { name := J.null, latitude := la, longitude := ln, raw := J.obj rkvs } := by
  have hp : AzureMaps.parsePosition position = Except.ok (la, ln) := by
    rcases h with ⟨kvs, a, b, hpos, ha, hb, hfa, hfb⟩ | ⟨s, p0, p1, rest, hpos, hsplit, hf0, hf1⟩
    · subst hpos
      simp [AzureMaps.parsePosition, ha, hb, hfa, hfb]
    · subst hpos
      simp [AzureMaps.parsePosition, hsplit, hf0, hf1]
  refine ⟨hp, ?_⟩
  simp [AzureMaps.parseResultLoc, pyGetD, h2, h3, hp, pyGetN]
  simp [dictGet]

/-- Witness for C9 at a concrete result whose position is a mapping with
numeric `lat`/`lon` values. -/
theorem azure_position_extraction_total_witness :
    AzureMaps.parsePosition (J.obj [("lat", J.num 3), ("lon", J.num 2)]) = Except.ok (3, 2)
    ∧ AzureMaps.parseResultLoc (J.obj [("position", J.obj [("lat", J.num 3), ("lon", J.num 2)])])
      = Except.ok { name := J.null, latitude := 3, longitude := 2
                  , raw := J.obj [("position", J.obj [("lat", J.num 3), ("lon", J.num 2)])] } :=
  azure_position_extraction_total _ 3 2 _ (Or.inl ⟨_, _, _, rfl, rfl, rfl, rfl, rfl⟩) rfl rfl

/-- Claim C2: a Vendor-B feature whose `center` array holds `[lon, lat]`
parses to a `Location` with latitude `center[1]` and longitude `center[0]`
(axis order reversed on assignment) and display name the `place_name` value of the feature; with `exactly_one` true, `_parse_feature` parses and
returns only the first feature of the collection (the remaining features
`rest` are arbitrary and never inspected). -/
theorem maptiler_parse_feature_center_axis_order
    (ckvs fkvs : List (String × J)) (rest center : List J)
    (nm : J) (lon lat : Rat)
    (h1 : dictGet ckvs "features" = some (J.arr (J.obj fkvs :: rest)))
    (h2 : dictGet fkvs "place_name" = some nm)
    (h3 : dictGet fkvs "center" = some (J.arr center))
    (h4 : center[0]? = some (J.num lon))
    (h5 : center[1]? = some (J.num lat)) :
    MapTiler.parse_feature_one (J.obj fkvs)
      = Except.ok { name := nm, latitude := lat, longitude := lon, raw := J.obj fkvs }
    ∧ MapTiler._parse_feature (J.obj ckvs) true
      = Except.ok (MTRes.loc { name := nm, latitude := lat, longitude := lon, raw := J.obj fkvs }) := by
  have hone : MapTiler.parse_feature_one (J.obj fkvs)
      = Except.ok { name := nm, latitude := lat, longitude := lon, raw := J.obj fkvs } := by
    simp [MapTiler.parse_feature_one, pyIndex, h2, h3, pyIndexNat, h4, h5, pyFloat]
  refine ⟨hone, ?_⟩
  simp [MapTiler._parse_feature, pyIndex, h1, pyTruthy, pyIndexNat, hone]

/-- Witness for C2 at the example coordinates of the spec
(lat, lng) = (40.7128, -74.0060): the `center` of the feature is
`[-74.0060, 40.7128]` and the parsed `Location` swaps the axes back. -/
theorem maptiler_parse_feature_center_axis_order_witness :
    MapTiler.parse_feature_one
      (J.obj [("place_name", J.str "New York"),
              ("center", J.arr [J.num (-74006/1000), J.num (407128/10000)])])
      = Except.ok { name := J.str "New York", latitude := 407128/10000, longitude := -74006/1000
                  , raw := J.obj [("place_name", J.str "New York"),
                                  ("center", J.arr [J.num (-74006/1000), J.num (407128/10000)])] }
    ∧ MapTiler._parse_feature
        (J.obj [("features", J.arr [J.obj [("place_name", J.str "New York"),
              ("center", J.arr [J.num (-74006/1000), J.num (407128/10000)])]])]) true
      = Except.ok (MTRes.loc
          { name := J.str "New York", latitude := 407128/10000, longitude := -74006/1000
          , raw := J.obj [("place_name", J.str "New York"),
                          ("center", J.arr [J.num (-74006/1000), J.num (407128/10000)])] }) :=
  maptiler_parse_feature_center_axis_order _ _ [] _ _ (-74006/1000) (407128/10000)
    rfl rfl rfl rfl rfl

/-- Counterexample to C3 as stated: a Vendor-B feature collection whose
`features` array is empty yields Python `None` even in multi-result mode
(`exactly_one = false`), not an empty sequence as the claim asserts. -/
theorem maptiler_empty_features_multi_cex :
    MapTiler._parse_feature (J.obj [("features", J.arr [])]) false = Except.ok MTRes.nothing
    ∧ MapTiler._parse_feature (J.obj [("features", J.arr [])]) false
        ≠ Except.ok (MTRes.locs []) := by
  refine ⟨rfl, ?_⟩
  intro h
  have h2 : Except.ok MTRes.nothing = Except.ok (MTRes.locs []) := h
  exact MTRes.noConfusion (Except.ok.inj h2)

/-- Claim C3 (amended): missing or empty result sets are not errors.  In
the Vendor-A batch parser an item whose per-item key (`addresses` or
`results`) is absent from its response mapping, or maps to an empty list,
yields `None` in single-result mode and an empty sequence in multi-result
mode; in the Vendor-B feature parser a present-but-empty `features` array
yields `None` regardless of the mode.  No error is raised in either
case. -/
theorem empty_result_sets_not_errors
    (ikvs rkvs fkvs : List (String × J)) (eo rev : Bool)
    (hA1 : dictGet ikvs "response" = some (J.obj rkvs))
    (hA2 : dictGet rkvs (if rev then "addresses" else "results") = none
         ∨ dictGet rkvs (if rev then "addresses" else "results") = some (J.arr []))
    (hB : dictGet fkvs "features" = some (J.arr [])) :
    AzureMaps._parse_batch_response [("batchItems", J.arr [J.obj ikvs])] eo rev
      = Except.ok [if eo then AzResult.one none else AzResult.many []]
    ∧ MapTiler._parse_feature (J.obj fkvs) eo = Except.ok MTRes.nothing := by
  constructor
  · have hitem : AzureMaps.parseBatchItem (if rev then "addresses" else "results") eo (J.obj ikvs)
        = Except.ok (if eo then AzResult.one none else AzResult.many []) := by
      rcases hA2 with h | h
      · have hin : pyIn rkvs (if rev then "addresses" else "results") = false := by
          rw [pyIn_eq_isSome, h]; rfl
        cases eo <;> simp [AzureMaps.parseBatchItem, pyIndex, hA1, pyContains, hin]
      · have hin : pyIn rkvs (if rev then "addresses" else "results") = true := by
          rw [pyIn_eq_isSome, h]; rfl
        cases eo <;>
          simp [AzureMaps.parseBatchItem, pyIndex, hA1, pyContains, hin, h, pyTruthy]
    simp [AzureMaps._parse_batch_response, pyIn, dictGet, pyIter, exMapM, hitem]
  · simp [MapTiler._parse_feature, pyIndex, hB, pyTruthy]

/-- Witness for C3 (amended) at a concrete forward batch item whose
`results` list is empty, in single-result mode, and a concrete empty
Vendor-B feature collection. -/
theorem empty_result_sets_not_errors_witness :
    AzureMaps._parse_batch_response
        [("batchItems", J.arr [J.obj [("response", J.obj [("results", J.arr [])])]])] true false
      = Except.ok [AzResult.one none]
    ∧ MapTiler._parse_feature (J.obj [("features", J.arr [])]) true = Except.ok MTRes.nothing :=
  empty_result_sets_not_errors _ _ _ true false rfl (Or.inr rfl) rfl

/-- Claim C5: for every batch response without a top-level `error` key
that parses successfully, Vendor-A `_parse_batch_response` returns
exactly one entry per element of `batchItems`, aligned 1:1 in order (each
output entry is the parse of the input item at the same index); likewise
Vendor-B `_parse_json` applied to a list of feature collections returns
one result per collection, aligned 1:1 in order. -/
theorem batch_parse_output_aligned
    (r_json : List (String × J)) (items : List J) (eo rev : Bool) (out : List AzResult)
    (cols : List J) (eo2 : Bool) (rs : List MTRes)
    (h0 : pyIn r_json "error" = false)
    (h1 : dictGet r_json "batchItems" = some (J.arr items))
    (h2 : AzureMaps._parse_batch_response r_json eo rev = Except.ok out)
    (h3 : MapTiler._parse_json (J.arr cols) eo2 = Except.ok (MTParsed.multi rs)) :
    out.length = items.length ∧ rs.length = cols.length
    ∧ List.Forall₂ (fun itm r =>
        AzureMaps.parseBatchItem (if rev then "addresses" else "results") eo itm
          = Except.ok r) items out
    ∧ List.Forall₂ (fun c r => MapTiler._parse_feature c eo2 = Except.ok r) cols rs := by
  have hA : exMapM (AzureMaps.parseBatchItem (if rev then "addresses" else "results") eo) items
      = Except.ok out := by
    simpa [AzureMaps._parse_batch_response, h0, h1, pyIter] using h2
  have hB : exMapM (fun f => MapTiler._parse_feature f eo2) cols = Except.ok rs := by
    simp [MapTiler._parse_json, pyIter] at h3
    cases hm : exMapM (fun f => MapTiler._parse_feature f eo2) cols with
    | error e => rw [hm] at h3; cases h3
    | ok rs2 => rw [hm] at h3; cases h3; rfl
  have fA := exMapM_forall2 _ items out hA
  have fB := exMapM_forall2 _ cols rs hB
  exact ⟨(List.Forall₂.length_eq fA).symm, (List.Forall₂.length_eq fB).symm, fA, fB⟩

/-- Witness for C5 at a concrete one-item batch response and a concrete
one-collection list. -/
theorem batch_parse_output_aligned_witness :
    ([AzResult.one none] : List AzResult).length = ([J.obj [("response", J.obj [])]] : List J).length
    ∧ ([MTRes.nothing] : List MTRes).length = ([J.obj [("features", J.arr [])]] : List J).length
    ∧ List.Forall₂ (fun itm r =>
        AzureMaps.parseBatchItem "results" true itm = Except.ok r)
        [J.obj [("response", J.obj [])]] [AzResult.one none]
    ∧ List.Forall₂ (fun c r => MapTiler._parse_feature c false = Except.ok r)
        [J.obj [("features", J.arr [])]] [MTRes.nothing] :=
  batch_parse_output_aligned [("batchItems", J.arr [J.obj [("response", J.obj [])]])]
    _ true false _ _ false _ rfl rfl rfl rfl
